import Mathlib

/-!
Shallow embedding of the blog API access-control and CRUD logic from
`app/routers/blog.py`, `app/models.py` and `app/es/index.py`.

SQLAlchemy `where` clauses are compiled to SQL, which uses three-valued
logic: a comparison with a NULL column yields UNKNOWN, and a row is kept
only when the whole predicate evaluates to TRUE.  We model an SQL boolean
as `Option Bool` (`none` = UNKNOWN/NULL) with Kleene connectives.
-/

deriving instance DecidableEq for Except

namespace BlogApi

/-- SQL boolean value: `none` models SQL NULL / UNKNOWN. -/
abbrev SqlB := Option Bool

/-- Kleene AND, as produced by SQL `AND` / SQLAlchemy `and_`. -/
def sqlAnd : SqlB → SqlB → SqlB
  | some false, _ => some false
  | _, some false => some false
  | some true, some true => some true
  | _, _ => none

/-- Kleene OR, as produced by SQL `OR` / SQLAlchemy `or_`. -/
def sqlOr : SqlB → SqlB → SqlB
  | some true, _ => some true
  | _, some true => some true
  | some false, some false => some false
  | _, _ => none

/-- A SQL WHERE clause keeps a row only when the predicate is TRUE
(UNKNOWN behaves like FALSE for filtering). -/
def sqlIsTrue : SqlB → Bool
  | some true => true
  | _ => false

/-- SQL comparison `col = literal` on a nullable boolean column:
NULL compared with anything is UNKNOWN. -/
def sqlEqBool (v : Option Bool) (b : Bool) : SqlB :=
  v.map (fun x => x == b)

/-- `and_(*conditions)` over the non-empty condition list built in
`get_posts`. -/
def sqlAndAll : List SqlB → SqlB
  | [] => some true
  | [c] => c
  | c :: rest => sqlAnd c (sqlAndAll rest)

/-- `posts` table row (`app/models.py`, class `Post`).  `published` is a
nullable Boolean column with insert default `False`; timestamps and
`published_at` play no role in the claims and are omitted. -/
structure Post where
  id : Nat
  author_id : String
  title : String
  short_description : Option String
  content : String
  published : Option Bool
  keywords : Option String
deriving Repr, DecidableEq

/-- `comments` table row (`app/models.py`, class `Comment`); the FK
`post_id` is nullable in the schema. -/
structure Comment where
  id : Nat
  author_id : String
  post_id : Option Nat
  content : String
deriving Repr, DecidableEq

/-- `favorite_posts` table row (`app/models.py`, class `FavouritePost`). -/
structure FavouritePost where
  id : Nat
  post_id : Option Nat
  user_id : String
deriving Repr, DecidableEq

/-- `media` table row (`app/models.py`, class `Media`). -/
structure Media where
  id : Nat
  post_id : Option Nat
  file_path : String
deriving Repr, DecidableEq

/-- The relational store: the four tables, rows in storage order. -/
structure DB where
  posts : List Post
  comments : List Comment
  favorites : List FavouritePost
  media : List Media
deriving Repr, DecidableEq

/-- Outcomes a handler can raise.  `notFound`/`badRequest`/`serverError`
are `HTTPException` 404/400/500; `attributeError` is an uncaught Python
`AttributeError` escaping the handler (surfaced as a 500 by the
framework, but not raised by the handler's own code). -/
inductive ApiError
  | notFound
  | badRequest
  | serverError
  | attributeError
deriving Repr, DecidableEq

/-- Request schema `PostCreate` (= `PostBase`): `title` and `content`
required, the rest optional with default `None`. -/
structure PostCreate where
  title : String
  content : String
  short_description : Option String := none
  published : Option Bool := none
  keywords : Option String := none
deriving Repr, DecidableEq

/-- Request schema `PostPatch`: every field optional, default `None`. -/
structure PostPatch where
  title : Option String := none
  content : Option String := none
  short_description : Option String := none
  keywords : Option String := none
  published : Option Bool := none
deriving Repr, DecidableEq

/-- Replace the first row matching `pred` (the ORM mutates exactly the
row object returned by `.first()`). -/
def replaceFirst (pred : α → Bool) (new : α) : List α → List α
  | [] => []
  | x :: xs => if pred x then new :: xs else x :: replaceFirst pred new xs

/-- Delete the first row matching `pred` (`db.delete(obj)` on the row
returned by `.first()`). -/
def removeFirst (pred : α → Bool) : List α → List α
  | [] => []
  | x :: xs => if pred x then xs else x :: removeFirst pred xs

/-- WHERE predicate of `get_post`:
`Post.id == post_id AND (Post.published == True OR Post.author_id == sub)`.
`id` and `author_id` are non-nullable, so their comparisons are two-valued;
`published` is nullable. -/
def getPostPred (post_id : Nat) (sub : String) (p : Post) : Bool :=
  p.id == post_id &&
    sqlIsTrue (sqlOr (sqlEqBool p.published true) (some (p.author_id == sub)))

/-- `GET /posts/{post_id}` (`get_post` in `blog.py`): select the first
visible row, else 404. -/
def get_post (db : DB) (post_id : Nat) (sub : String) : Except ApiError Post :=
  match db.posts.find? (getPostPred post_id sub) with
  | some p => Except.ok p
  | none => Except.error ApiError.notFound

/-- The condition list built in `get_posts`: the `author_id` condition is
appended only when the query parameter is truthy (`if author_id:` skips
both `None` and the empty string), then the published-status condition. -/
def getPostsConds (sub : String) (published : Option Bool)
    (author_id : Option String) : List (Post → SqlB) :=
  (match author_id with
   | some a => if a ≠ "" then [fun p => some (p.author_id == a)] else []
   | none => []) ++
  (match published with
   | some true => [fun p => sqlEqBool p.published true]
   | some false =>
       [fun p => sqlAnd (sqlEqBool p.published false) (some (p.author_id == sub))]
   | none =>
       [fun p => sqlOr (sqlEqBool p.published true)
          (sqlAnd (sqlEqBool p.published false) (some (p.author_id == sub)))])

/-- `GET /posts/` (`get_posts` in `blog.py`): filter by the combined
AND of the collected conditions (the `if conditions:` guard mirrored). -/
def get_posts (db : DB) (sub : String) (published : Option Bool)
    (author_id : Option String) : List Post :=
  let conditions := getPostsConds sub published author_id
  if conditions.isEmpty then db.posts
  else db.posts.filter (fun p => sqlIsTrue (sqlAndAll (conditions.map (fun c => c p))))

/-- WHERE predicate shared by `update_post`, `patch_post`, `delete_post`:
`Post.id == post_id AND Post.author_id == sub`. -/
def ownPostPred (post_id : Nat) (sub : String) (p : Post) : Bool :=
  p.id == post_id && p.author_id == sub

/-- WHERE predicate of `update_comment` / `delete_comment`:
`Comment.id == comment_id AND Comment.author_id == sub`. -/
def ownCommentPred (comment_id : Nat) (sub : String) (c : Comment) : Bool :=
  c.id == comment_id && c.author_id == sub

/-- `POST /posts/` (`create_post`): the `Post` row is constructed without
`published`, so the column insert default `False` applies; `es_index_post`
runs after the commit, its failure (`esOk = false`) escaping as a server
error.  `newId` stands for the store-assigned primary key. -/
def create_post (db : DB) (post : PostCreate) (sub : String) (newId : Nat)
    (esOk : Bool) : DB × Except ApiError Post :=
  let new_post : Post :=
    { id := newId, author_id := sub, title := post.title,
      short_description := post.short_description, content := post.content,
      published := some false, keywords := post.keywords }
  let db2 : DB := { db with posts := db.posts ++ [new_post] }
  (db2, if esOk then Except.ok new_post else Except.error ApiError.serverError)

/-- `PUT /posts/{post_id}` (`update_post`): full update — every mutable
field is assigned from the request, including `None` values.  The commit
precedes `es_index_post`, whose failure escapes as a server error. -/
def update_post (db : DB) (post_id : Nat) (post_update : PostCreate)
    (sub : String) (esOk : Bool) : DB × Except ApiError Post :=
  match db.posts.find? (ownPostPred post_id sub) with
  | none => (db, Except.error ApiError.notFound)
  | some p =>
    let p2 : Post :=
      { p with
        title := post_update.title, content := post_update.content,
        short_description := post_update.short_description,
        keywords := post_update.keywords, published := post_update.published }
    let db2 : DB :=
      { db with posts := replaceFirst (ownPostPred post_id sub) p2 db.posts }
    (db2, if esOk then Except.ok p2 else Except.error ApiError.serverError)

/-- `PATCH /posts/{post_id}` (`patch_post`): only fields sent as non-None
are assigned; absent fields keep their stored values. -/
def patch_post (db : DB) (post_id : Nat) (post_patch : PostPatch)
    (sub : String) (esOk : Bool) : DB × Except ApiError Post :=
  match db.posts.find? (ownPostPred post_id sub) with
  | none => (db, Except.error ApiError.notFound)
  | some p =>
    let p2 : Post :=
      { p with
        title := (match post_patch.title with
          | some v => v
          | none => p.title),
        content := (match post_patch.content with
          | some v => v
          | none => p.content),
        short_description := (match post_patch.short_description with
          | some v => some v
          | none => p.short_description),
        keywords := (match post_patch.keywords with
          | some v => some v
          | none => p.keywords),
        published := (match post_patch.published with
          | some v => some v
          | none => p.published) }
    let db2 : DB :=
      { db with posts := replaceFirst (ownPostPred post_id sub) p2 db.posts }
    (db2, if esOk then Except.ok p2 else Except.error ApiError.serverError)

/-- `DELETE /posts/{post_id}` (`delete_post`): ownership check, then the
row is deleted and committed; the ORM cascade `all, delete` removes the
post's comments and media, and nulls the FK of its favorite rows.
`es_delete_post` catches every exception and only logs it, so the
response does not depend on `esOk`. -/
def delete_post (db : DB) (post_id : Nat) (sub : String) (_esOk : Bool) :
    DB × Except ApiError Unit :=
  match db.posts.find? (ownPostPred post_id sub) with
  | none => (db, Except.error ApiError.notFound)
  | some _ =>
    let db2 : DB :=
      { posts := removeFirst (fun p => p.id == post_id) db.posts,
        comments := db.comments.filter (fun c => !(c.post_id == some post_id)),
        favorites := db.favorites.map (fun f =>
          if f.post_id == some post_id then { f with post_id := none } else f),
        media := db.media.filter (fun m => !(m.post_id == some post_id)) }
    (db2, Except.ok ())

/-- `POST /posts/{post_id}/comments` (`create_comment`): the post must
exist (no visibility filter), then the comment row is inserted. -/
def create_comment (db : DB) (post_id : Nat) (content : String) (sub : String)
    (newId : Nat) : DB × Except ApiError Comment :=
  match db.posts.find? (fun p => p.id == post_id) with
  | none => (db, Except.error ApiError.notFound)
  | some _ =>
    let new_comment : Comment :=
      { id := newId, author_id := sub, post_id := some post_id, content := content }
    ({ db with comments := db.comments ++ [new_comment] }, Except.ok new_comment)

/-- `PUT /comments/{comment_id}` (`update_comment`): ownership check,
then only `content` is assigned. -/
def update_comment (db : DB) (comment_id : Nat) (content : String)
    (sub : String) : DB × Except ApiError Comment :=
  match db.comments.find? (ownCommentPred comment_id sub) with
  | none => (db, Except.error ApiError.notFound)
  | some c =>
    let c2 : Comment := { c with content := content }
    ({ db with comments := replaceFirst (ownCommentPred comment_id sub) c2 db.comments },
     Except.ok c2)

/-- `DELETE /comments/{comment_id}` (`delete_comment`): ownership check,
then the row is deleted. -/
def delete_comment (db : DB) (comment_id : Nat) (sub : String) :
    DB × Except ApiError Unit :=
  match db.comments.find? (ownCommentPred comment_id sub) with
  | none => (db, Except.error ApiError.notFound)
  | some _ =>
    ({ db with comments := removeFirst (ownCommentPred comment_id sub) db.comments },
     Except.ok ())

/-- WHERE predicate of the favorite lookups:
`FavouritePost.user_id == sub AND FavouritePost.post_id == post_id`. -/
def favPred (post_id : Nat) (sub : String) (f : FavouritePost) : Bool :=
  f.user_id == sub && f.post_id == some post_id

/-- `POST /favorites/{post_id}` (`add_favorite`): 404 if the post does
not exist; if the pair already exists, return the already-in-favorites
message without inserting; else insert and return the added message. -/
def add_favorite (db : DB) (post_id : Nat) (sub : String) (newFavId : Nat) :
    DB × Except ApiError String :=
  match db.posts.find? (fun p => p.id == post_id) with
  | none => (db, Except.error ApiError.notFound)
  | some _ =>
    match db.favorites.find? (favPred post_id sub) with
    | some _ => (db, Except.ok "Post już znajduje się w ulubionych")
    | none =>
      let favourite : FavouritePost :=
        { id := newFavId, post_id := some post_id, user_id := sub }
      ({ db with favorites := db.favorites ++ [favourite] },
       Except.ok "Post dodany do ulubionych")

/-- `DELETE /favorites/{post_id}` (`remove_favorite`): 404 if the pair
does not exist.  When it exists, the handler evaluates
`FavouritePost.delete()` — but the declarative ORM class has no `delete`
attribute, so this raises `AttributeError` before any delete statement or
commit runs: the store is left unchanged and the error escapes. -/
def remove_favorite (db : DB) (post_id : Nat) (sub : String) :
    DB × Except ApiError String :=
  match db.favorites.find? (favPred post_id sub) with
  | none => (db, Except.error ApiError.notFound)
  | some _ => (db, Except.error ApiError.attributeError)

/-- Index of the last occurrence of `c` in `cs`, if any. -/
def lastIdxOf (cs : List Char) (c : Char) : Option Nat :=
  ((List.range cs.length).filter (fun i => cs.get? i == some c)).getLast?

/-- The extension part of `os.path.splitext` (posix): the suffix from the
last dot, provided that dot lies after the last path separator and some
character of the basename strictly before it is not a dot (so dotfiles
like `.bashrc` have no extension). -/
def splitext_ext (p : String) : String :=
  let cs := p.data
  match lastIdxOf cs '.' with
  | none => ""
  | some dotIdx =>
    let start := match lastIdxOf cs '/' with
      | some sepIdx => sepIdx + 1
      | none => 0
    if dotIdx < start then ""
    else if (List.range' start (dotIdx - start)).all
        (fun i => cs.get? i == some '.') then ""
    else String.mk (cs.drop dotIdx)

/-- Python `str.lower()` on a filename extension (character-wise
lowercasing; extensions here are ASCII). -/
def strLower (s : String) : String :=
  String.mk (s.data.map Char.toLower)

/-- The upload allow-list from `upload_media`. -/
def allowed_extensions : List String := [".jpg", ".jpeg", ".png", ".gif"]

/-- Default object-store bucket name (`MINIO_BUCKET` in `app/minio.py`). -/
def MINIO_BUCKET : String := "blog-media"

/-- Result of `upload_media`: the store state, the list of object names
sent to the object store (`put_object` calls, attempted or successful),
and the response. -/
structure UploadResult where
  db : DB
  minio_calls : List String
  resp : Except ApiError (String × Nat)
deriving Repr

/-- `POST /upload/` (`upload_media`): the lowered extension is checked
against the allow-list before anything else — a disallowed extension is a
400 with no object-store call and no database write.  Otherwise the file
is put under `uuid ++ ext` (an `S3Error`, `minioOk = false`, becomes a
500 after the attempted call), then the `Media` row is inserted and the
bucket-relative URL returned. -/
def upload_media (db : DB) (filename : String) (post_id : Option Nat)
    (uuid : String) (newMediaId : Nat) (minioOk : Bool) : UploadResult :=
  let ext := strLower (splitext_ext filename)
  if !(allowed_extensions.contains ext) then
    { db := db, minio_calls := [], resp := Except.error ApiError.badRequest }
  else
    let unique_filename := uuid ++ ext
    if !minioOk then
      { db := db, minio_calls := [unique_filename],
        resp := Except.error ApiError.serverError }
    else
      let new_media : Media :=
        { id := newMediaId, post_id := post_id, file_path := unique_filename }
      { db := { db with media := db.media ++ [new_media] },
        minio_calls := [unique_filename],
        resp := Except.ok
          ("http://localhost:9000/" ++ MINIO_BUCKET ++ "/" ++ unique_filename,
           newMediaId) }

/-! ### Helper lemmas -/

/-- A Kleene conjunction is TRUE exactly when both sides are TRUE. -/
theorem sqlIsTrue_and : ∀ x y : SqlB,
    sqlIsTrue (sqlAnd x y) = (sqlIsTrue x && sqlIsTrue y) := by decide

/-- A Kleene disjunction is TRUE exactly when one side is TRUE. -/
theorem sqlIsTrue_or : ∀ x y : SqlB,
    sqlIsTrue (sqlOr x y) = (sqlIsTrue x || sqlIsTrue y) := by decide

/-- A non-null boolean is TRUE exactly when it is `true`. -/
theorem sqlIsTrue_some : ∀ b : Bool, sqlIsTrue (some b) = b := by decide

/-- `col = b` is TRUE exactly when the nullable column holds `b`. -/
theorem sqlIsTrue_eqBool : ∀ (v : Option Bool) (b : Bool),
    sqlIsTrue (sqlEqBool v b) = (v == some b) := by decide

/-- The `get_post` WHERE clause, spelled as a proposition. -/
theorem getPostPred_iff (pid : Nat) (sub : String) (p : Post) :
    getPostPred pid sub p = true ↔
      p.id = pid ∧ (p.published = some true ∨ p.author_id = sub) := by
  simp [getPostPred, sqlIsTrue_or, sqlIsTrue_eqBool, sqlIsTrue_some]

/-- The mutation-ownership WHERE clause, spelled as a proposition. -/
theorem ownPostPred_iff (pid : Nat) (sub : String) (p : Post) :
    ownPostPred pid sub p = true ↔ p.id = pid ∧ p.author_id = sub := by
  simp [ownPostPred]

/-- The comment-ownership WHERE clause, spelled as a proposition. -/
theorem ownCommentPred_iff (cid : Nat) (sub : String) (c : Comment) :
    ownCommentPred cid sub c = true ↔ c.id = cid ∧ c.author_id = sub := by
  simp [ownCommentPred]

/-- The favorite-pair WHERE clause, spelled as a proposition. -/
theorem favPred_iff (pid : Nat) (sub : String) (f : FavouritePost) :
    favPred pid sub f = true ↔ f.user_id = sub ∧ f.post_id = some pid := by
  simp [favPred]

/-- `find?` returns the unique matching element. -/
theorem find?_eq_of_unique {α : Type} {l : List α} {pred : α → Bool} {P : α}
    (hmem : P ∈ l) (hP : pred P = true)
    (huniq : ∀ q ∈ l, pred q = true → q = P) :
    l.find? pred = some P := by
  induction l with
  | nil => cases hmem
  | cons x xs ih =>
    rcases List.mem_cons.mp hmem with h | h
    · subst h
      exact List.find?_cons_of_pos xs hP
    · by_cases hx : pred x = true
      · have hxP : x = P := huniq x (List.mem_cons_self x xs) hx
        subst hxP
        exact List.find?_cons_of_pos xs hP
      · rw [List.find?_cons_of_neg xs hx]
        exact ih h (fun q hq hpq => huniq q (List.mem_cons_of_mem x hq) hpq)

/-- `find?` skips a prefix with no match. -/
theorem find?_append_of_none {α : Type} {l₁ l₂ : List α} {pred : α → Bool}
    (h : l₁.find? pred = none) :
    (l₁ ++ l₂).find? pred = l₂.find? pred := by
  induction l₁ with
  | nil => rfl
  | cons x xs ih =>
    by_cases hx : pred x = true
    · rw [List.find?_cons_of_pos xs hx] at h
      cases h
    · rw [List.cons_append, List.find?_cons_of_neg _ hx]
      rw [List.find?_cons_of_neg xs hx] at h
      exact ih h

/-- A filter with no match is empty. -/
theorem filter_eq_nil_of_none {α : Type} {l : List α} {pred : α → Bool}
    (h : ∀ x ∈ l, ¬ pred x = true) : l.filter pred = [] := by
  induction l with
  | nil => rfl
  | cons x xs ih =>
    rw [List.filter_cons]
    have hx : ¬ pred x = true := h x (List.mem_cons_self x xs)
    simp only [hx, if_false]
    exact ih (fun q hq => h q (List.mem_cons_of_mem x hq))

/-- With distinct primary keys, two stored posts with the same id are the
same row. -/
theorem post_id_inj {db : DB} (hnd : (db.posts.map Post.id).Nodup)
    {P q : Post} (hP : P ∈ db.posts) (hq : q ∈ db.posts) (heq : q.id = P.id) :
    q = P :=
  List.inj_on_of_nodup_map hnd hq hP heq

/-- `get_post` answers `ok P` for a stored post `P` exactly under the
visibility disjunction (distinct ids assumed, as for a primary key). -/
theorem get_post_ok_iff {db : DB} {P : Post} {R : String}
    (hnd : (db.posts.map Post.id).Nodup) (hmem : P ∈ db.posts) :
    get_post db P.id R = Except.ok P ↔
      (P.published = some true ∨ P.author_id = R) := by
  constructor
  · intro h
    unfold get_post at h
    cases hfind : db.posts.find? (getPostPred P.id R) with
    | none => rw [hfind] at h; cases h
    | some q =>
      rw [hfind] at h
      cases h
      exact ((getPostPred_iff P.id R P).mp (List.find?_some hfind)).2
  · intro h
    unfold get_post
    rw [find?_eq_of_unique hmem ((getPostPred_iff P.id R P).mpr ⟨rfl, h⟩)
      (fun q hq hpq => post_id_inj hnd hmem hq ((getPostPred_iff P.id R q).mp hpq).1)]

/-- Membership in the unfiltered listing: `get_posts` with both query
parameters absent filters by
`published == TRUE OR (published == FALSE AND author_id == sub)`. -/
theorem mem_get_posts_unfiltered {db : DB} {P : Post} {R : String} :
    P ∈ get_posts db R none none ↔
      P ∈ db.posts ∧
        (P.published = some true ∨ (P.published = some false ∧ P.author_id = R)) := by
  unfold get_posts getPostsConds
  simp [List.mem_filter, sqlAndAll, sqlIsTrue_or, sqlIsTrue_and, sqlIsTrue_eqBool, sqlIsTrue_some]

/-! ### Sample data for witnesses and counterexamples -/

/-- A draft post owned by `alice`. -/
def alicePost : Post :=
  { id := 1, author_id := "alice", title := "t", short_description := none,
    content := "c", published := some false, keywords := none }

/-- A published post owned by `bob`. -/
def bobPost : Post :=
  { id := 2, author_id := "bob", title := "u", short_description := none,
    content := "d", published := some true, keywords := none }

/-- Store holding only alice's draft. -/
def aliceDb : DB :=
  { posts := [alicePost], comments := [], favorites := [], media := [] }

/-- Store holding alice's draft and bob's published post. -/
def twoPostDb : DB :=
  { posts := [alicePost, bobPost], comments := [], favorites := [], media := [] }

/-- A full-update payload that sends only the required fields, leaving
`short_description`, `published` and `keywords` at their `None` default. -/
def fullUpdate : PostCreate := { title := "t2", content := "c2" }

/-- Alice's post after `update_post` with `fullUpdate`: `published` has
been overwritten with NULL. -/
def nulledPost : Post :=
  { id := 1, author_id := "alice", title := "t2", short_description := none,
    content := "c2", published := none, keywords := none }

/-- An existing favorite pair: alice has favorited post 2. -/
def favRow : FavouritePost := { id := 7, post_id := some 2, user_id := "alice" }

/-- Store where the pair (post 2, alice) exists. -/
def favDb : DB :=
  { posts := [bobPost], comments := [], favorites := [favRow], media := [] }

/-- Store where no favorite pair exists. -/
def noFavDb : DB :=
  { posts := [bobPost], comments := [], favorites := [], media := [] }

/-! ### Claims -/

/-- C1 (counterexample): the claimed visibility identity between the
unfiltered listing and the single read fails for a post whose `published`
was set to NULL by a full update.  Starting from alice's stored draft, a
full update by alice that omits `published` commits NULL into the column;
afterwards `get_post` still returns the post to alice, but the unfiltered
`get_posts` for alice returns nothing — so "returned by list_posts(R)
iff get_post(P.id, R) succeeds" is false at this input, although
`author_id == R` holds. -/
theorem c1_visibility_counterexample :
    (update_post aliceDb 1 fullUpdate "alice" true).1.posts = [nulledPost] ∧
    get_post (update_post aliceDb 1 fullUpdate "alice" true).1 1 "alice"
      = Except.ok nulledPost ∧
    get_posts (update_post aliceDb 1 fullUpdate "alice" true).1 "alice" none none
      = [] := by
  decide

/-- C1 (amended): for every stored post `P` whose `published` field is
non-null, the visibility criterion is identical across read operations —
`P` is returned by the unfiltered listing iff `get_post` succeeds, and
both hold exactly when `published == true OR author_id == R`.  A post
whose `published` is NULL splits the two reads: it is never returned by
the listing, while `get_post` returns it exactly to its author. -/
theorem c1_visibility_amended (db : DB) (P : Post) (R : String)
    (hnd : (db.posts.map Post.id).Nodup) (hmem : P ∈ db.posts) :
    (∀ b : Bool, P.published = some b →
      ((P ∈ get_posts db R none none ↔ get_post db P.id R = Except.ok P) ∧
       (get_post db P.id R = Except.ok P ↔
         (P.published = some true ∨ P.author_id = R)))) ∧
    (P.published = none →
      P ∉ get_posts db R none none ∧
      (get_post db P.id R = Except.ok P ↔ P.author_id = R)) := by
  have hget := @get_post_ok_iff db P R hnd hmem
  have hlist := @mem_get_posts_unfiltered db P R
  constructor
  · intro b hb
    refine ⟨?_, hget⟩
    rw [hlist, hget]
    cases b
    · simp [hb, hmem]
    · simp [hb, hmem]
  · intro hb
    constructor
    · rw [hlist]
      simp [hb]
    · rw [hget]
      simp [hb]

/-- C1 (witness): the amended statement instantiated on the store holding
only alice's draft, with alice as requester. -/
theorem c1_visibility_amended_witness :
    ((aliceDb.posts.map Post.id).Nodup ∧ alicePost ∈ aliceDb.posts) ∧
    ((∀ b : Bool, alicePost.published = some b →
      ((alicePost ∈ get_posts aliceDb "alice" none none ↔
          get_post aliceDb alicePost.id "alice" = Except.ok alicePost) ∧
       (get_post aliceDb alicePost.id "alice" = Except.ok alicePost ↔
         (alicePost.published = some true ∨ alicePost.author_id = "alice")))) ∧
     (alicePost.published = none →
      alicePost ∉ get_posts aliceDb "alice" none none ∧
      (get_post aliceDb alicePost.id "alice" = Except.ok alicePost ↔
        alicePost.author_id = "alice"))) :=
  ⟨⟨by decide, by decide⟩,
   c1_visibility_amended aliceDb alicePost "alice" (by decide) (by decide)⟩

/-- C2: with distinct primary keys, `get_post(pid, R)` returns a stored
post `P` with that id iff `P.published == true OR P.author_id == R`, and
whenever no stored post with that id is both present and visible —
including when no post with the id exists at all — it fails with
NotFound, so a forbidden post is indistinguishable from an absent one. -/
theorem c2_get_post_contract (db : DB) (pid : Nat) (R : String)
    (hnd : (db.posts.map Post.id).Nodup) :
    (∀ P ∈ db.posts, P.id = pid →
      (get_post db pid R = Except.ok P ↔
        (P.published = some true ∨ P.author_id = R))) ∧
    ((∀ P ∈ db.posts, P.id = pid → P.published ≠ some true ∧ P.author_id ≠ R) →
      get_post db pid R = Except.error ApiError.notFound) := by
  constructor
  · intro P hmem hid
    subst hid
    exact get_post_ok_iff hnd hmem
  · intro h
    have hfind : db.posts.find? (getPostPred pid R) = none := by
      rw [List.find?_eq_none]
      intro x hx hpx
      obtain ⟨hid, hvis⟩ := (getPostPred_iff pid R x).mp hpx
      obtain ⟨h1, h2⟩ := h x hx hid
      cases hvis with
      | inl hv => exact h1 hv
      | inr hv => exact h2 hv
    unfold get_post
    rw [hfind]

/-- C2 (witness): the contract instantiated on the two-post store, with
`carol` requesting alice's draft (id 1): invisible, hence NotFound. -/
theorem c2_get_post_contract_witness :
    (twoPostDb.posts.map Post.id).Nodup ∧
    ((∀ P ∈ twoPostDb.posts, P.id = 1 →
      (get_post twoPostDb 1 "carol" = Except.ok P ↔
        (P.published = some true ∨ P.author_id = "carol"))) ∧
     ((∀ P ∈ twoPostDb.posts, P.id = 1 →
        P.published ≠ some true ∧ P.author_id ≠ "carol") →
      get_post twoPostDb 1 "carol" = Except.error ApiError.notFound)) :=
  ⟨by decide, c2_get_post_contract twoPostDb 1 "carol" (by decide)⟩

/-- C3: evaluating `remove_favorite` at the failing input.  When the pair
(post 2, alice) exists, the handler reaches `FavouritePost.delete()`,
which raises `AttributeError` — the call does not succeed and the row is
not removed (the store is unchanged).  When the pair does not exist, it
fails with NotFound as the claim states. -/
theorem c3_remove_favorite_crash :
    remove_favorite favDb 2 "alice"
      = (favDb, Except.error ApiError.attributeError) ∧
    remove_favorite noFavDb 2 "alice"
      = (noFavDb, Except.error ApiError.notFound) := by
  decide

/-- With distinct primary keys, the ownership query returns exactly the
owned stored post. -/
theorem find?_own_eq_some {db : DB} {P : Post} {R : String}
    (hnd : (db.posts.map Post.id).Nodup) (hmem : P ∈ db.posts)
    (hown : P.author_id = R) :
    db.posts.find? (ownPostPred P.id R) = some P :=
  find?_eq_of_unique hmem ((ownPostPred_iff P.id R P).mpr ⟨rfl, hown⟩)
    (fun q hq hpq => post_id_inj hnd hmem hq ((ownPostPred_iff P.id R q).mp hpq).1)

/-- C4: on an owned stored post `P`, `patch_post` with a payload carrying
only `title` replaces the row by `P` with just the title changed (all
other stored fields keep their values), while `update_post` with a
payload carrying only the required `title` and `content` overwrites every
mutable field, setting the omitted nullable fields `short_description`,
`keywords` and `published` to NULL. -/
theorem c4_patch_frame_update_overwrite (db : DB) (P : Post) (R : String)
    (t t2 c2 : String)
    (hnd : (db.posts.map Post.id).Nodup) (hmem : P ∈ db.posts)
    (hown : P.author_id = R) :
    patch_post db P.id { title := some t } R true
      = ({ db with posts := replaceFirst (ownPostPred P.id R) { P with title := t } db.posts },
         Except.ok { P with title := t }) ∧
    update_post db P.id { title := t2, content := c2 } R true
      = ({ db with posts := replaceFirst (ownPostPred P.id R) { P with title := t2, content := c2, short_description := none, keywords := none, published := none } db.posts },
         Except.ok { P with title := t2, content := c2, short_description := none, keywords := none, published := none }) := by
  have hfind := find?_own_eq_some hnd hmem hown
  constructor
  · simp [patch_post, hfind]
  · simp [update_post, hfind]

/-- C4 (witness): the frame/overwrite contrast instantiated on alice's
stored draft. -/
theorem c4_patch_frame_update_overwrite_witness :
    ((aliceDb.posts.map Post.id).Nodup ∧ alicePost ∈ aliceDb.posts ∧
      alicePost.author_id = "alice") ∧
    (patch_post aliceDb alicePost.id { title := some "x" } "alice" true
      = ({ aliceDb with posts := replaceFirst (ownPostPred alicePost.id "alice") { alicePost with title := "x" } aliceDb.posts },
         Except.ok { alicePost with title := "x" }) ∧
     update_post aliceDb alicePost.id { title := "y", content := "z" } "alice" true
      = ({ aliceDb with posts := replaceFirst (ownPostPred alicePost.id "alice") { alicePost with title := "y", content := "z", short_description := none, keywords := none, published := none } aliceDb.posts },
         Except.ok { alicePost with title := "y", content := "z", short_description := none, keywords := none, published := none })) :=
  ⟨⟨by decide, by decide, by decide⟩,
   c4_patch_frame_update_overwrite aliceDb alicePost "alice" "x" "y" "z"
     (by decide) (by decide) (by decide)⟩

/-- Membership in the listing filtered by `published=false` with a truthy
author filter: the combined AND of both conditions. -/
theorem mem_get_posts_false_author {db : DB} {P : Post} {R a : String}
    (ha : a ≠ "") :
    P ∈ get_posts db R (some false) (some a) ↔
      P ∈ db.posts ∧ P.published = some false ∧ P.author_id = R ∧
        P.author_id = a := by
  unfold get_posts getPostsConds
  simp only [ha, if_true, ne_eq, not_false_iff, ite_true, List.cons_append,
    List.nil_append, List.isEmpty_cons, Bool.false_eq_true, if_false,
    List.mem_filter, List.map_cons, List.map_nil, sqlAndAll, sqlIsTrue_and,
    sqlIsTrue_eqBool, sqlIsTrue_some, Bool.and_eq_true, beq_iff_eq]
  tauto

/-- C5 (counterexample): with the empty string as author filter, the
`if author_id:` truthiness check skips the author condition, so
`list_posts(alice, published=false, author_filter="")` returns alice's
draft even though `"" != "alice"` — the claim's promised empty result
fails at this input. -/
theorem c5_author_filter_counterexample :
    get_posts aliceDb "alice" (some false) (some "") = [alicePost] ∧
    alicePost.author_id ≠ "" := by
  decide

/-- C5 (amended): for every requester `R` and non-empty author filter
`a`, the filtered listing returns exactly the stored posts with
`published == false AND author_id == R AND author_id == a`; in
particular it is the empty list (an empty success, not an error)
whenever `a != R`.  An empty-string author filter is treated as absent. -/
theorem c5_drafts_author_filter_amended (db : DB) (R a : String) (ha : a ≠ "") :
    (∀ P : Post, P ∈ get_posts db R (some false) (some a) ↔
      P ∈ db.posts ∧ P.published = some false ∧ P.author_id = R ∧
        P.author_id = a) ∧
    (a ≠ R → get_posts db R (some false) (some a) = []) := by
  constructor
  · intro P
    exact mem_get_posts_false_author ha
  · intro hne
    rw [List.eq_nil_iff_forall_not_mem]
    intro P hP
    obtain ⟨-, -, hR, ha2⟩ := (mem_get_posts_false_author ha).mp hP
    exact hne (ha2.symm.trans hR)

/-- C5 (witness): the amended statement instantiated with requester
`alice` and author filter `bob` on the store holding alice's draft. -/
theorem c5_drafts_author_filter_amended_witness :
    ("bob" : String) ≠ "" ∧
    ((∀ P : Post, P ∈ get_posts aliceDb "alice" (some false) (some "bob") ↔
      P ∈ aliceDb.posts ∧ P.published = some false ∧ P.author_id = "alice" ∧
        P.author_id = "bob") ∧
     (("bob" : String) ≠ "alice" →
      get_posts aliceDb "alice" (some false) (some "bob") = [])) :=
  ⟨by decide, c5_drafts_author_filter_amended aliceDb "alice" "bob" (by decide)⟩

/-- C6: a mutation on a post or comment not owned by the requester —
whether because the id is absent or because the stored row has a
different author — fails with NotFound and leaves the store unchanged,
for all five mutation handlers. -/
theorem c6_mutations_not_owned_notfound (db : DB) (pid cid : Nat)
    (R : String) (upd : PostCreate) (pp : PostPatch) (cc : String)
    (esOk : Bool)
    (hpost : ∀ p ∈ db.posts, p.id = pid → p.author_id ≠ R)
    (hcomment : ∀ c ∈ db.comments, c.id = cid → c.author_id ≠ R) :
    update_post db pid upd R esOk = (db, Except.error ApiError.notFound) ∧
    patch_post db pid pp R esOk = (db, Except.error ApiError.notFound) ∧
    delete_post db pid R esOk = (db, Except.error ApiError.notFound) ∧
    update_comment db cid cc R = (db, Except.error ApiError.notFound) ∧
    delete_comment db cid R = (db, Except.error ApiError.notFound) := by
  have hfp : db.posts.find? (ownPostPred pid R) = none := by
    rw [List.find?_eq_none]
    intro p hp hpred
    obtain ⟨hid, hau⟩ := (ownPostPred_iff pid R p).mp hpred
    exact hpost p hp hid hau
  have hfc : db.comments.find? (ownCommentPred cid R) = none := by
    rw [List.find?_eq_none]
    intro c hc hpred
    obtain ⟨hid, hau⟩ := (ownCommentPred_iff cid R c).mp hpred
    exact hcomment c hc hid hau
  refine ⟨?_, ?_, ?_, ?_, ?_⟩
  · simp [update_post, hfp]
  · simp [patch_post, hfp]
  · simp [delete_post, hfp]
  · simp [update_comment, hfc]
  · simp [delete_comment, hfc]

/-- C6 (witness): `mallory` attacking alice's stored post (id 1) and a
non-existent comment: every mutation yields NotFound, store untouched. -/
theorem c6_mutations_not_owned_notfound_witness :
    ((∀ p ∈ twoPostDb.posts, p.id = 1 → p.author_id ≠ "mallory") ∧
     (∀ c ∈ twoPostDb.comments, c.id = 5 → c.author_id ≠ "mallory")) ∧
    (update_post twoPostDb 1 fullUpdate "mallory" true
      = (twoPostDb, Except.error ApiError.notFound) ∧
    patch_post twoPostDb 1 {} "mallory" true
      = (twoPostDb, Except.error ApiError.notFound) ∧
    delete_post twoPostDb 1 "mallory" true
      = (twoPostDb, Except.error ApiError.notFound) ∧
    update_comment twoPostDb 5 "hi" "mallory"
      = (twoPostDb, Except.error ApiError.notFound) ∧
    delete_comment twoPostDb 5 "mallory"
      = (twoPostDb, Except.error ApiError.notFound)) :=
  ⟨⟨by decide, by decide⟩,
   c6_mutations_not_owned_notfound twoPostDb 1 5 "mallory" fullUpdate {} "hi"
     true (by decide) (by decide)⟩

/-- C7: on a store where the post exists and the pair is not yet
favorited, the first `add_favorite` inserts exactly one row and returns
the "added" message; the second call returns the non-error
"already exists" message, inserts nothing, and exactly one row for the
pair remains. -/
theorem c7_add_favorite_twice (db : DB) (pid : Nat) (U : String)
    (id1 id2 : Nat)
    (hpost : ∃ p ∈ db.posts, p.id = pid)
    (hnofav : ∀ f ∈ db.favorites, ¬(f.user_id = U ∧ f.post_id = some pid)) :
    add_favorite db pid U id1
      = ({ db with favorites := db.favorites ++ [⟨id1, some pid, U⟩] },
         Except.ok "Post dodany do ulubionych") ∧
    add_favorite (add_favorite db pid U id1).1 pid U id2
      = ((add_favorite db pid U id1).1,
         Except.ok "Post już znajduje się w ulubionych") ∧
    ((add_favorite (add_favorite db pid U id1).1 pid U id2).1.favorites.filter
        (favPred pid U)).length = 1 := by
  obtain ⟨q, hq⟩ : ∃ q, db.posts.find? (fun p => p.id == pid) = some q := by
    apply Option.isSome_iff_exists.mp
    apply List.find?_isSome.mpr
    obtain ⟨p, hp, hid⟩ := hpost
    exact ⟨p, hp, by simp [hid]⟩
  have hffav : db.favorites.find? (favPred pid U) = none := by
    rw [List.find?_eq_none]
    intro f hf hpred
    exact hnofav f hf ((favPred_iff pid U f).mp hpred)
  have h1 : add_favorite db pid U id1
      = ({ db with favorites := db.favorites ++ [⟨id1, some pid, U⟩] },
         Except.ok "Post dodany do ulubionych") := by
    simp [add_favorite, hq, hffav]
  have hfind2 : (db.favorites ++ [⟨id1, some pid, U⟩] :
      List FavouritePost).find? (favPred pid U)
      = some ⟨id1, some pid, U⟩ := by
    rw [find?_append_of_none hffav]
    exact List.find?_cons_of_pos [] (by simp [favPred])
  have h2 : add_favorite (add_favorite db pid U id1).1 pid U id2
      = ((add_favorite db pid U id1).1,
         Except.ok "Post już znajduje się w ulubionych") := by
    rw [h1]
    simp [add_favorite, hq, hfind2]
  refine ⟨h1, h2, ?_⟩
  rw [h2, h1]
  rw [List.filter_append _ _,
    filter_eq_nil_of_none (fun f hf hpf =>
      hnofav f hf ((favPred_iff pid U f).mp hpf))]
  simp [favPred]

/-- C7 (witness): alice favoriting bob's published post (id 2) twice on
the store with no favorites. -/
theorem c7_add_favorite_twice_witness :
    ((∃ p ∈ noFavDb.posts, p.id = 2) ∧
     (∀ f ∈ noFavDb.favorites, ¬(f.user_id = "alice" ∧ f.post_id = some 2))) ∧
    (add_favorite noFavDb 2 "alice" 7
      = ({ noFavDb with favorites := noFavDb.favorites ++ [⟨7, some 2, "alice"⟩] },
         Except.ok "Post dodany do ulubionych") ∧
    add_favorite (add_favorite noFavDb 2 "alice" 7).1 2 "alice" 8
      = ((add_favorite noFavDb 2 "alice" 7).1,
         Except.ok "Post już znajduje się w ulubionych") ∧
    ((add_favorite (add_favorite noFavDb 2 "alice" 7).1 2 "alice" 8).1.favorites.filter
        (favPred 2 "alice")).length = 1) :=
  ⟨⟨by decide, by decide⟩,
   c7_add_favorite_twice noFavDb 2 "alice" 7 8 (by decide) (by decide)⟩

/-- C8: search-index mirroring failures are asymmetric.  For an owned
stored post, `delete_post` does not depend on whether the index removal
succeeds (`es_delete_post` swallows the exception): the response is 204
and the committed deletion stands either way.  For `create_post`,
`update_post` and `patch_post`, an index failure after the commit
escapes to the caller as a server error. -/
theorem c8_index_failure_asymmetry (db : DB) (P : Post) (R : String)
    (payload : PostCreate) (pp : PostPatch) (newId : Nat)
    (hmem : P ∈ db.posts) (hown : P.author_id = R) :
    (∀ esOk : Bool,
      delete_post db P.id R esOk = delete_post db P.id R true ∧
      (delete_post db P.id R esOk).2 = Except.ok () ∧
      (delete_post db P.id R esOk).1.posts
        = removeFirst (fun p => p.id == P.id) db.posts) ∧
    (create_post db payload R newId false).2
      = Except.error ApiError.serverError ∧
    (update_post db P.id payload R false).2
      = Except.error ApiError.serverError ∧
    (patch_post db P.id pp R false).2
      = Except.error ApiError.serverError := by
  obtain ⟨q, hq⟩ : ∃ q, db.posts.find? (ownPostPred P.id R) = some q := by
    apply Option.isSome_iff_exists.mp
    apply List.find?_isSome.mpr
    exact ⟨P, hmem, (ownPostPred_iff P.id R P).mpr ⟨rfl, hown⟩⟩
  refine ⟨fun esOk => ⟨rfl, ?_, ?_⟩, rfl, ?_, ?_⟩
  · simp [delete_post, hq]
  · simp [delete_post, hq]
  · simp [update_post, hq]
  · simp [patch_post, hq]

/-- C8 (witness): the asymmetry instantiated on the two-post store with
alice deleting/updating her own post (id 1). -/
theorem c8_index_failure_asymmetry_witness :
    (alicePost ∈ twoPostDb.posts ∧ alicePost.author_id = "alice") ∧
    ((∀ esOk : Bool,
      delete_post twoPostDb alicePost.id "alice" esOk
        = delete_post twoPostDb alicePost.id "alice" true ∧
      (delete_post twoPostDb alicePost.id "alice" esOk).2 = Except.ok () ∧
      (delete_post twoPostDb alicePost.id "alice" esOk).1.posts
        = removeFirst (fun p => p.id == alicePost.id) twoPostDb.posts) ∧
    (create_post twoPostDb fullUpdate "alice" 9 false).2
      = Except.error ApiError.serverError ∧
    (update_post twoPostDb alicePost.id fullUpdate "alice" false).2
      = Except.error ApiError.serverError ∧
    (patch_post twoPostDb alicePost.id {} "alice" false).2
      = Except.error ApiError.serverError) :=
  ⟨⟨by decide, by decide⟩,
   c8_index_failure_asymmetry twoPostDb alicePost "alice" fullUpdate {} 9
     (by decide) (by decide)⟩

/-- C9: an upload whose lowered filename extension is outside the
allow-list fails with 400 before anything else happens: no object name is
sent to the object store and the store database is unchanged — no Media
row is created. -/
theorem c9_upload_bad_extension (db : DB) (filename : String)
    (pid : Option Nat) (uuid : String) (mid : Nat) (minioOk : Bool)
    (hext : strLower (splitext_ext filename) ∉ allowed_extensions) :
    upload_media db filename pid uuid mid minioOk
      = { db := db, minio_calls := [],
          resp := Except.error ApiError.badRequest } := by
  simp [upload_media, hext]

/-- C9 (witness): uploading `notes.txt` is rejected with no side
effects. -/
theorem c9_upload_bad_extension_witness :
    strLower (splitext_ext "notes.txt") ∉ allowed_extensions ∧
    upload_media aliceDb "notes.txt" none "u0" 3 true
      = { db := aliceDb, minio_calls := [],
          resp := Except.error ApiError.badRequest } :=
  ⟨by decide, c9_upload_bad_extension aliceDb "notes.txt" none "u0" 3 true
    (by decide)⟩

/-- C10: `create_post` never reads the payload's `published` field: the
inserted row always carries the column default `published = false` (a
draft), and the handler's entire result is unchanged if the payload had
explicitly set `published = true`. -/
theorem c10_create_post_ignores_published (db : DB) (payload : PostCreate)
    (sub : String) (newId : Nat) (esOk : Bool) :
    (create_post db payload sub newId esOk).1.posts
      = db.posts ++ [{ id := newId, author_id := sub, title := payload.title, short_description := payload.short_description, content := payload.content, published := some false, keywords := payload.keywords }] ∧
    create_post db payload sub newId esOk
      = create_post db { payload with published := some true } sub newId esOk :=
  ⟨rfl, rfl⟩

end BlogApi
